import Mathlib

/-!
Shallow embedding of the faceted gall-search engine of `src/pages/search2.tsx`
(gallformers): the don't-care test, the per-facet predicates, `checkGall`,
`updateQuery`, and the state transitions `doSearch` (facet edit) and
`onSubmit` (root fetch), together with proofs of the specified properties.
-/

/-- A JavaScript query value as it can actually occur in a `SearchQuery`
field at runtime: absent (`undefined`), a string, or an array of strings.
(`updateQuery` writes through an untyped record cast, so any facet key can
hold any of the three shapes.) -/
inductive QVal where
  | absent : QVal
  | str : String → QVal
  | arr : List String → QVal
deriving DecidableEq, Repr

/-- Embeds `dontCare` from search2.tsx lines 16-19:
`const truthy = !!o; return !truthy || (truthy && Array.isArray(o) ? o?.length == 0 : false)`.
`undefined` and `""` are falsy; an array is always truthy and is don't-care
iff empty. -/
def dontCare (o : QVal) : Bool :=
  match o with
  | .absent => true
  | .str s => s == ""
  | .arr l => l.length == 0

/-- One row of the `location` lookup table as reached through
`gp?.location?.location`; the column is a nullable string (the page wraps
option values in `mightBeNull`). Modelled from the spec: the row type lives
in `libs/db` (not under src/); only the one column the search touches is
kept. -/
structure LocRow where
  location : Option String
deriving DecidableEq, Repr

/-- One element of `Gall.galllocation` (`GallLocation` of `libs/types`,
not under src/). Modelled from the spec: a join row whose `location`
relation may be absent, as the source's `gp?.location?` chain allows. -/
structure GallLocation where
  location : Option LocRow
deriving DecidableEq, Repr

/-- One row of the `texture` lookup table, nullable column, as reached
through `gp?.texture?.texture`. Modelled from the spec (type lives outside
src/). -/
structure TexRow where
  texture : Option String
deriving DecidableEq, Repr

/-- One element of `Gall.galltexture` (`GallTexture` of `libs/types`, not
under src/). Modelled from the spec. -/
structure GallTexture where
  texture : Option TexRow
deriving DecidableEq, Repr

/-- A record under search (`Gall` of `libs/types`, not under src/).
Modelled from the spec's data model and the fields `checkGall` reads: each
single-valued attribute is an optional related row carrying a nullable
string column; `detachable` is a nullable numeric code; the multi-valued
attributes are nullable arrays of join rows. -/
structure Gall where
  id : Int
  species_id : Int
  alignment : Option (Option String)
  cells : Option (Option String)
  color : Option (Option String)
  detachable : Option Int
  shape : Option (Option String)
  walls : Option (Option String)
  galllocation : Option (List GallLocation)
  galltexture : Option (List GallTexture)
deriving DecidableEq, Repr

/-- The facet query (`SearchQuery` of `libs/types`, not under src/).
Modelled from the spec and the keys `checkGall`/`updateQuery` touch: one
field per facet, each holding whatever shape `updateQuery` stored there. -/
structure SearchQuery where
  alignment : QVal
  cells : QVal
  color : QVal
  detachable : QVal
  shape : QVal
  walls : QVal
  locations : QVal
  textures : QVal
deriving DecidableEq, Repr

/-- The all-don't-care query: every facet key absent. -/
def allDontCare : SearchQuery :=
  { alignment := .absent, cells := .absent, color := .absent, detachable := .absent
    shape := .absent, walls := .absent, locations := .absent, textures := .absent }

/-- JavaScript strict equality `left === qv` where `left` is the record's
extracted column value (`string | null`) and `qv` the query value: true
only for two equal strings. -/
def sEq (l : Option String) (qv : QVal) : Bool :=
  match l, qv with
  | some s, .str t => s == t
  | _, _ => false

/-- Tests whether `b` starts with the character sequence `a`. -/
def charsStartWith : List Char → List Char → Bool
  | [], _ => true
  | _ :: _, [] => false
  | a :: as, b :: bs => a == b && charsStartWith as bs

/-- Tests whether `hay` contains `ned` as a contiguous substring (JS `String.includes`). -/
def charsContain : List Char → List Char → Bool
  | [], ned => ned.isEmpty
  | hay@(_ :: t), ned => charsStartWith ned hay || charsContain t ned

/-- Embeds `queryvals.includes(x)`: array membership for an array, substring test
for a string (the untyped store can leave a plain string in
`q.locations`). -/
def jsIncludes (qv : QVal) (x : String) : Bool :=
  match qv with
  | .arr l => l.contains x
  | .str s => charsContain s.data x.data
  | .absent => false

/-- Embeds `checkLocations` from search2.tsx lines 21-25: false when the record's
list is null or the query value is `undefined`; otherwise some element has
a truthy (present, non-empty) `location.location` tag that the query value
includes. -/
def checkLocations (gallprops : Option (List GallLocation)) (queryvals : QVal) : Bool :=
  match gallprops, queryvals with
  | none, _ => false
  | _, .absent => false
  | some gps, qv =>
      gps.any fun gp =>
        match gp.location.bind LocRow.location with
        | some s => s != "" && jsIncludes qv s
        | none => false

/-- Embeds `checkTextures` from search2.tsx lines 27-31, same shape as
`checkLocations` over the `texture` chain. -/
def checkTextures (gallprops : Option (List GallTexture)) (queryvals : QVal) : Bool :=
  match gallprops, queryvals with
  | none, _ => false
  | _, .absent => false
  | some gps, qv =>
      gps.any fun gp =>
        match gp.texture.bind TexRow.texture with
        | some s => s != "" && jsIncludes qv s
        | none => false

/-- One single-valued conjunct of `checkGall`:
`dontCare(q.f) || (!!g.f && g.f?.f === q.f)` — the related row must be
present and its column strictly equal to the query value. -/
def singleTest (row : Option (Option String)) (qv : QVal) : Bool :=
  dontCare qv ||
    (match row with
     | some fld => sEq fld qv
     | none => false)

/-- The detachable conjunct of `checkGall` line 37:
`dontCare(q.detachable) || (!!g.detachable && (g.detachable == 0 ? 'no' : 'yes') === q.detachable)`.
`!!g.detachable` is false for both `null` and the code `0`. -/
def detachTest (d : Option Int) (qv : QVal) : Bool :=
  dontCare qv ||
    ((match d with
      | some n => n != 0
      | none => false) &&
     sEq (some (match d with
       | some n => if n == 0 then "no" else "yes"
       | none => "yes")) qv)

/-- The locations conjunct of `checkGall` line 40:
`dontCare(q.locations) || (!!g.galllocation && checkLocations(g.galllocation, q.locations))`
(an array, even empty, is truthy). -/
def locationTest (gps : Option (List GallLocation)) (qv : QVal) : Bool :=
  dontCare qv || (gps.isSome && checkLocations gps qv)

/-- The textures conjunct of `checkGall` line 41. -/
def textureTest (gps : Option (List GallTexture)) (qv : QVal) : Bool :=
  dontCare qv || (gps.isSome && checkTextures gps qv)

/-- Embeds `checkGall` from search2.tsx lines 33-44: the conjunction of the eight
independent per-facet tests. -/
def checkGall (g : Gall) (q : SearchQuery) : Bool :=
  let alignment := singleTest g.alignment q.alignment
  let cells := singleTest g.cells q.cells
  let color := singleTest g.color q.color
  let detachable := detachTest g.detachable q.detachable
  let shape := singleTest g.shape q.shape
  let walls := singleTest g.walls q.walls
  let location := locationTest g.galllocation q.locations
  let texture := textureTest g.galltexture q.textures
  alignment && cells && color && detachable && shape && walls && location && texture

/-- The facet fields a filter edit can target: `makeFormInput` is invoked
exactly for these eight field names (search2.tsx lines 238-273). -/
inductive FacetField where
  | alignment : FacetField
  | cells : FacetField
  | color : FacetField
  | detachable : FacetField
  | shape : FacetField
  | walls : FacetField
  | locations : FacetField
  | textures : FacetField
deriving DecidableEq, Repr

/-- A facet edit's payload, `string | string[]`: a multi-select change
delivers an array (`onChange(selected)`), an Enter keypress delivers the
input's text (`e.currentTarget.value`). -/
inductive FVal where
  | str : String → FVal
  | arr : List String → FVal
deriving DecidableEq, Repr

/-- Embeds JS `v.length`: character count of a string, element count of an
array. -/
def FVal.lengthJS : FVal → Nat
  | .str s => s.length
  | .arr l => l.length

/-- Embeds JS `v[0]`: the first character (as a one-character string) of a
string, the first element of an array. Only evaluated under the
`v.length > 0` guard, so the empty-array fallback is unreachable. -/
def FVal.atZero : FVal → QVal
  | .str s => .str (s.take 1)
  | .arr l =>
      match l with
      | x :: _ => .str x
      | [] => .absent

/-- The stored value when no first-element extraction applies. -/
def FVal.toQVal : FVal → QVal
  | .str s => .str s
  | .arr l => .arr l

/-- Read the query's value at a facet key (`query[f]`). -/
def getQ (q : SearchQuery) (f : FacetField) : QVal :=
  match f with
  | .alignment => q.alignment
  | .cells => q.cells
  | .color => q.color
  | .detachable => q.detachable
  | .shape => q.shape
  | .walls => q.walls
  | .locations => q.locations
  | .textures => q.textures

/-- Write one facet key of the copied query (`qq[f] = value` after
`{ ...query }`). -/
def setQ (q : SearchQuery) (f : FacetField) (value : QVal) : SearchQuery :=
  match f with
  | .alignment => { q with alignment := value }
  | .cells => { q with cells := value }
  | .color => { q with color := value }
  | .detachable => { q with detachable := value }
  | .shape => { q with shape := value }
  | .walls => { q with walls := value }
  | .locations => { q with locations := value }
  | .textures => { q with textures := value }

/-- Embeds `updateQuery` from search2.tsx lines 115-120:
`const value = f !== 'locations' && f !== 'textures' && v.length > 0 ? v[0] : v; qq[f] = value`.
For every field other than `locations`/`textures`, a non-empty value is
replaced by its JS `v[0]` — the first selection of an array, the first
character of a string. -/
def updateQuery (q : SearchQuery) (f : FacetField) (v : FVal) : SearchQuery :=
  let value :=
    if f ≠ FacetField.locations ∧ f ≠ FacetField.textures ∧ 0 < v.lengthJS
    then v.atZero else v.toQVal
  setQ q f value

/-- The component state the search logic owns: the Displayed Set
(`galls`, `useState` line 103) and the accumulated facet Query (`query`,
`useState` line 104). The react-hook-form control state of the filter
inputs is presentation-only and carries no filtering semantics. -/
structure SearchState where
  galls : List Gall
  query : SearchQuery
deriving DecidableEq, Repr

/-- Embeds `doSearch` from search2.tsx lines 144-149: merge the edit into the
query, filter the CURRENT `galls` (not the original fetch result) with
`checkGall` under the new query, and store both. -/
def doSearch (s : SearchState) (field : FacetField) (value : FVal) : SearchState :=
  let newq := updateQuery s.query field value
  let filtered := s.galls.filter fun g => checkGall g newq
  { galls := filtered, query := newq }

/-- Outcome of the root fetch in `onSubmit`: an HTTP response with a
status and (for 200) a parsed gall list, or a thrown transport error. -/
inductive FetchOutcome where
  | response : Nat → List Gall → FetchOutcome
  | transportError : FetchOutcome
deriving DecidableEq, Repr

/-- Embeds `onSubmit` from search2.tsx lines 123-141, restricted to the state it
owns: on a 200 response `setGalls(await res.json())` replaces the
Displayed Set; any other status throws and the `catch` only logs, so
neither `galls` nor `query` changes. Note `setQuery` is never called:
`filterReset()` clears only the filter form controls, and the accumulated
`query` state survives a resubmission. -/
def onSubmit (s : SearchState) (r : FetchOutcome) : SearchState :=
  match r with
  | .response status gs => if status == 200 then { s with galls := gs } else s
  | .transportError => s

/-- A sequence of facet edits applied in order. -/
def applyEdits (s : SearchState) (edits : List (FacetField × FVal)) : SearchState :=
  edits.foldl (fun st e => doSearch st e.1 e.2) s

/-- Concrete record: green gall on a stem (spec scenario record 1). -/
def gGreenStem : Gall :=
  { id := 1, species_id := 1, alignment := none, cells := none,
    color := some (some "green"), detachable := some 1, shape := none,
    walls := none, galllocation := some [{ location := some { location := some "stem" } }],
    galltexture := none }

/-- Concrete record: a gall with no color row and detachable code 0. -/
def gDetach0 : Gall :=
  { id := 4, species_id := 4, alignment := none, cells := none, color := none,
    detachable := some 0, shape := none, walls := none, galllocation := none,
    galltexture := none }

/-- Concrete record: brown, round gall fetched by a root resubmission. -/
def gBrownRound : Gall :=
  { id := 5, species_id := 5, alignment := none, cells := none,
    color := some (some "brown"), detachable := none, shape := some (some "round"),
    walls := none, galllocation := none, galltexture := none }

/-- Query constraining only the detachable facet to the label `no`. -/
def qNo : SearchQuery := { allDontCare with detachable := QVal.str "no" }

/-- Query constraining only the color facet to `green`. -/
def qGreen : SearchQuery := { allDontCare with color := QVal.str "green" }

/-- Query constraining only the color facet to `red`. -/
def qColorRed : SearchQuery := { allDontCare with color := QVal.str "red" }

/-- Query whose every facet value is one of the three don't-care shapes. -/
def qMixed : SearchQuery :=
  { alignment := .absent, cells := .str "", color := .arr [], detachable := .absent,
    shape := .str "", walls := .absent, locations := .arr [], textures := .str "" }

/-- Record-side location list carrying the tags stem and leaf. -/
def glStemLeaf : Option (List GallLocation) :=
  some [{ location := some { location := some "stem" } },
        { location := some { location := some "leaf" } }]

theorem applyEdits_galls_sublist (edits : List (FacetField × FVal)) :
    ∀ s : SearchState, ((applyEdits s edits).galls).Sublist s.galls := by
  induction edits with
  | nil => intro s; exact List.Sublist.refl _
  | cons e es ih =>
      intro s
      exact (ih (doSearch s e.1 e.2)).trans (List.filter_sublist _)

/-- C1: a facet edit filters the current Displayed Set (never the original
fetch result), so every new Displayed Set is a sublist — in particular a
subset — of the previous one; after edits A then B, a further edit that
clears A still only narrows, yielding S3 a sublist of S2. -/
theorem c1_monotonic_narrowing (s : SearchState) (f : FacetField) (v : FVal) :
    (doSearch s f v).galls
        = s.galls.filter (fun g => checkGall g (updateQuery s.query f v)) ∧
    ((doSearch s f v).galls).Sublist s.galls ∧
    ∀ (A B : FacetField) (vA vB clearA : FVal),
      ((doSearch (doSearch (doSearch s A vA) B vB) A clearA).galls).Sublist
        ((doSearch (doSearch s A vA) B vB).galls) := by
  refine ⟨rfl, List.filter_sublist _, ?_⟩
  intro A B vA vB clearA
  exact List.filter_sublist _

/-- C10: after a successful root fetch, every state reachable by any
sequence of facet edits has a Displayed Set that is an order-preserving
subsequence (sublist) of the fetched superset. -/
theorem c10_displayed_sublist_of_fetch (s : SearchState) (fetched : List Gall)
    (edits : List (FacetField × FVal)) :
    ((applyEdits (onSubmit s (FetchOutcome.response 200 fetched)) edits).galls).Sublist
      fetched := by
  have h := applyEdits_galls_sublist edits (onSubmit s (FetchOutcome.response 200 fetched))
  simpa [onSubmit] using h

/-- C5: a query whose every facet value is don't-care (absent, empty
string, or empty array) matches every record, and a don't-care value for
any single facet makes that facet's test true immediately. -/
theorem c5_dont_care_matches :
    (∀ (g : Gall) (q : SearchQuery),
       dontCare q.alignment = true → dontCare q.cells = true → dontCare q.color = true →
       dontCare q.detachable = true → dontCare q.shape = true → dontCare q.walls = true →
       dontCare q.locations = true → dontCare q.textures = true → checkGall g q = true) ∧
    (∀ (row : Option (Option String)) (d : Option Int)
       (gl : Option (List GallLocation)) (gt : Option (List GallTexture)) (qv : QVal),
       dontCare qv = true →
       singleTest row qv = true ∧ detachTest d qv = true ∧
       locationTest gl qv = true ∧ textureTest gt qv = true) := by
  constructor
  · intro g q h1 h2 h3 h4 h5 h6 h7 h8
    simp [checkGall, singleTest, detachTest, locationTest, textureTest,
      h1, h2, h3, h4, h5, h6, h7, h8]
  · intro row d gl gt qv h
    simp [singleTest, detachTest, locationTest, textureTest, h]

theorem c5_witness :
    (dontCare qMixed.alignment = true ∧ dontCare qMixed.cells = true ∧
     dontCare qMixed.color = true ∧ dontCare qMixed.detachable = true ∧
     dontCare qMixed.shape = true ∧ dontCare qMixed.walls = true ∧
     dontCare qMixed.locations = true ∧ dontCare qMixed.textures = true) ∧
    checkGall gGreenStem qMixed = true :=
  ⟨⟨by decide, by decide, by decide, by decide, by decide, by decide, by decide, by decide⟩,
   c5_dont_care_matches.1 gGreenStem qMixed (by decide) (by decide) (by decide) (by decide)
     (by decide) (by decide) (by decide) (by decide)⟩

/-- C7: a record whose value for some single-valued facet is null never
matches a query that constrains that facet (non-don't-care), whatever the
query value is. -/
theorem c7_null_single_never_matches (g : Gall) (q : SearchQuery)
    (h : (g.alignment = none ∧ dontCare q.alignment = false) ∨
         (g.cells = none ∧ dontCare q.cells = false) ∨
         (g.color = none ∧ dontCare q.color = false) ∨
         (g.detachable = none ∧ dontCare q.detachable = false) ∨
         (g.shape = none ∧ dontCare q.shape = false) ∨
         (g.walls = none ∧ dontCare q.walls = false)) :
    checkGall g q = false := by
  rcases h with ⟨h1, h2⟩ | ⟨h1, h2⟩ | ⟨h1, h2⟩ | ⟨h1, h2⟩ | ⟨h1, h2⟩ | ⟨h1, h2⟩ <;>
    simp [checkGall, singleTest, detachTest, h1, h2]

theorem c7_witness :
    (gDetach0.color = none ∧ dontCare qColorRed.color = false) ∧
    checkGall gDetach0 qColorRed = false :=
  ⟨⟨rfl, by decide⟩,
   c7_null_single_never_matches gDetach0 qColorRed (Or.inr (Or.inr (Or.inl ⟨rfl, by decide⟩)))⟩

/-- C3 counterexample: a record with detachable code 0 does NOT satisfy
the query value `no` — the `!!g.detachable` truthiness guard rejects the
code 0 before the claimed `0 ↦ no` mapping can ever compare equal. -/
theorem c3_counterexample :
    detachTest gDetach0.detachable qNo.detachable = false ∧
    checkGall gDetach0 qNo = false := by
  decide

/-- C3 amended: the detachable test reaches the label comparison only when
the record's coded value is truthy (non-null and nonzero), so a record
with detachable code 0 fails every constrained (non-don't-care) detachable
query value — in particular `no` — and hence the record does not match. -/
theorem c3_detach0_never_matches (g : Gall) (q : SearchQuery)
    (h0 : g.detachable = some 0) (h1 : dontCare q.detachable = false) :
    detachTest g.detachable q.detachable = false ∧ checkGall g q = false := by
  have hd : detachTest g.detachable q.detachable = false := by
    simp [detachTest, h0, h1]
  refine ⟨hd, ?_⟩
  simp [checkGall, hd]

theorem c3_witness :
    (gDetach0.detachable = some 0 ∧ dontCare qNo.detachable = false) ∧
    (detachTest gDetach0.detachable qNo.detachable = false ∧
     checkGall gDetach0 qNo = false) :=
  ⟨⟨rfl, by decide⟩, c3_detach0_never_matches gDetach0 qNo rfl (by decide)⟩

/-- C9: for a constrained (non-don't-care) query value, the detachable
test is true exactly when the record's code is non-null and nonzero and
the query value is the string `yes`; consequently the query values `no`
and `unsure` are satisfied by no record at all. -/
theorem c9_detachable_only_yes (d : Option Int) (qv : QVal) :
    (dontCare qv = false →
      (detachTest d qv = true ↔ ((∃ n, d = some n ∧ n ≠ 0) ∧ qv = QVal.str "yes"))) ∧
    detachTest d (QVal.str "no") = false ∧
    detachTest d (QVal.str "unsure") = false := by
  refine ⟨?_, ?_, ?_⟩
  · intro h
    cases d with
    | none => simp [detachTest, h, sEq]
    | some n =>
      rcases eq_or_ne n 0 with rfl | hn
      · simp [detachTest, h, sEq]
      · cases qv with
        | absent => simp [dontCare] at h
        | str s =>
            simp [detachTest, h, sEq, hn]
            exact eq_comm
        | arr l => simp [detachTest, h, sEq, hn]
  · cases d with
    | none => simp [detachTest, dontCare, sEq]
    | some n =>
      rcases eq_or_ne n 0 with rfl | hn
      · simp [detachTest, dontCare, sEq]
      · simp [detachTest, dontCare, sEq, hn]
  · cases d with
    | none => simp [detachTest, dontCare, sEq]
    | some n =>
      rcases eq_or_ne n 0 with rfl | hn
      · simp [detachTest, dontCare, sEq]
      · simp [detachTest, dontCare, sEq, hn]

theorem c9_witness :
    dontCare (QVal.str "yes") = false ∧
    (detachTest (some 1) (QVal.str "yes") = true ↔
      ((∃ n, (some 1 : Option Int) = some n ∧ n ≠ 0) ∧
        QVal.str "yes" = QVal.str "yes")) ∧
    detachTest (some 1) (QVal.str "no") = false ∧
    detachTest (some 1) (QVal.str "unsure") = false :=
  ⟨by decide, (c9_detachable_only_yes (some 1) (QVal.str "yes")).1 (by decide),
   (c9_detachable_only_yes (some 1) (QVal.str "no")).2.1,
   (c9_detachable_only_yes (some 1) (QVal.str "unsure")).2.2⟩

/-- C2 (code defect, evaluated at the failing input): a successful root
resubmission replaces the Displayed Set with the fetched list but leaves
the accumulated Query untouched — `onSubmit` never resets `query`
(`filterReset()` clears only the form controls) — so with a stale
`color=green` constraint a subsequently fetched brown, round gall is
dropped by the very next facet edit even though that edit only sets
`shape=round`. -/
theorem c2_stale_query_survives_resubmit :
    (onSubmit ⟨[], qGreen⟩ (FetchOutcome.response 200 [gBrownRound])).galls
        = [gBrownRound] ∧
    (onSubmit ⟨[], qGreen⟩ (FetchOutcome.response 200 [gBrownRound])).query = qGreen ∧
    qGreen ≠ allDontCare ∧
    (doSearch (onSubmit ⟨[], qGreen⟩ (FetchOutcome.response 200 [gBrownRound]))
        FacetField.shape (FVal.arr ["round"])).galls = [] ∧
    checkGall gBrownRound { allDontCare with shape := QVal.str "round" } = true := by
  decide

/-- C8: a root fetch that fails — non-200 response or a thrown transport
error — leaves the previous Displayed Set and Query exactly as they were:
no partial update. -/
theorem c8_failed_fetch_preserves_state (s : SearchState) (status : Nat)
    (body : List Gall) (h : status ≠ 200) :
    onSubmit s (FetchOutcome.response status body) = s ∧
    onSubmit s FetchOutcome.transportError = s := by
  refine ⟨?_, rfl⟩
  simp [onSubmit, h]

theorem c8_witness :
    (404 : Nat) ≠ 200 ∧
    (onSubmit ⟨[gGreenStem], qNo⟩ (FetchOutcome.response 404 []) = ⟨[gGreenStem], qNo⟩ ∧
     onSubmit ⟨[gGreenStem], qNo⟩ FetchOutcome.transportError = ⟨[gGreenStem], qNo⟩) :=
  ⟨by decide, c8_failed_fetch_preserves_state ⟨[gGreenStem], qNo⟩ 404 [] (by decide)⟩

/-- C4 counterexample: merging the free-choice string `green` into the
color facet stores only its first character `g` (JS `v[0]` indexes the
string), not the string itself. -/
theorem c4_counterexample :
    (updateQuery allDontCare FacetField.color (FVal.str "green")).color
        = QVal.str "g" ∧
    (updateQuery allDontCare FacetField.color (FVal.str "green")).color
        ≠ QVal.str "green" := by
  decide

/-- C4 amended: a facet edit is a single overwrite at the edited key — at
every other key the query is unchanged, and a second edit to the same
facet fully replaces the first; for every facet other than
locations/textures a non-empty value is replaced by its JS first element
(the first selection of a multi-select, or the FIRST CHARACTER of a
free-choice string), while locations/textures store the whole value
as given. -/
theorem c4_update_is_single_overwrite (q : SearchQuery) (f : FacetField) (v : FVal) :
    getQ (updateQuery q f v) f =
      (match f, v with
       | .locations, w => w.toQVal
       | .textures, w => w.toQVal
       | _, .str s => if 0 < s.length then QVal.str (s.take 1) else QVal.str s
       | _, .arr l =>
           (match l with
            | x :: _ => QVal.str x
            | [] => QVal.arr l)) ∧
    (∀ f', f' ≠ f → getQ (updateQuery q f v) f' = getQ q f') ∧
    (∀ w, updateQuery (updateQuery q f v) f w = updateQuery q f w) := by
  refine ⟨?_, ?_, ?_⟩
  · cases f <;> cases v <;>
      simp only [updateQuery, getQ, setQ, FVal.atZero, FVal.toQVal, FVal.lengthJS] <;>
      split <;> simp_all <;> split <;> simp_all [List.length_pos]
  · intro f' hf'
    cases f <;> cases f' <;> first | exact absurd rfl hf' | rfl
  · intro w
    cases f <;> rfl

theorem c4_witness :
    FacetField.shape ≠ FacetField.color ∧
    getQ (updateQuery allDontCare FacetField.color (FVal.arr ["red", "blue"]))
        FacetField.shape = getQ allDontCare FacetField.shape :=
  ⟨by decide,
   (c4_update_is_single_overwrite allDontCare FacetField.color
       (FVal.arr ["red", "blue"])).2.1 FacetField.shape (by decide)⟩

theorem locEntry_iff (gp : GallLocation) (qv : List String) (hns : "" ∉ qv) :
    ((match gp.location.bind LocRow.location with
      | some s => s != "" && jsIncludes (QVal.arr qv) s
      | none => false) = true)
    ↔ ∃ r t, gp.location = some r ∧ r.location = some t ∧ t ∈ qv := by
  cases gp with
  | mk loc =>
    cases loc with
    | none => simp
    | some r =>
      cases r with
      | mk rloc =>
        cases rloc with
        | none => simp
        | some t =>
          simp [jsIncludes, hns]
          exact fun hm he => hns (he ▸ hm)

theorem texEntry_iff (gp : GallTexture) (qv : List String) (hns : "" ∉ qv) :
    ((match gp.texture.bind TexRow.texture with
      | some s => s != "" && jsIncludes (QVal.arr qv) s
      | none => false) = true)
    ↔ ∃ r t, gp.texture = some r ∧ r.texture = some t ∧ t ∈ qv := by
  cases gp with
  | mk tex =>
    cases tex with
    | none => simp
    | some r =>
      cases r with
      | mk rtex =>
        cases rtex with
        | none => simp
        | some t =>
          simp [jsIncludes, hns]
          exact fun hm he => hns (he ▸ hm)

/-- C6: for a non-empty sequence of query values (none of them the empty
string), the multi-valued facet test is true iff the record's list is
non-null and at least one of its elements carries a tag contained in the
query sequence — any-of semantics; the same holds for both locations and
textures. -/
theorem c6_multi_any_of (gl : Option (List GallLocation))
    (gt : Option (List GallTexture)) (qv : List String)
    (hne : qv ≠ []) (hns : "" ∉ qv) :
    (locationTest gl (QVal.arr qv) = true ↔
       ∃ l, gl = some l ∧ ∃ gp ∈ l, ∃ r t,
         gp.location = some r ∧ r.location = some t ∧ t ∈ qv) ∧
    (textureTest gt (QVal.arr qv) = true ↔
       ∃ l, gt = some l ∧ ∃ gp ∈ l, ∃ r t,
         gp.texture = some r ∧ r.texture = some t ∧ t ∈ qv) := by
  have hdc : dontCare (QVal.arr qv) = false := by
    simpa [dontCare] using hne
  constructor
  · cases gl with
    | none => simp [locationTest, checkLocations, hdc]
    | some l =>
      simp only [locationTest, hdc, Bool.false_or, Option.isSome_some, Bool.true_and,
        checkLocations, List.any_eq_true, Option.some.injEq]
      constructor
      · rintro ⟨gp, hgp, hmatch⟩
        exact ⟨l, rfl, gp, hgp, (locEntry_iff gp qv hns).1 hmatch⟩
      · rintro ⟨l2, hl2, gp, hgp, hx⟩
        cases hl2
        exact ⟨gp, hgp, (locEntry_iff gp qv hns).2 hx⟩
  · cases gt with
    | none => simp [textureTest, checkTextures, hdc]
    | some l =>
      simp only [textureTest, hdc, Bool.false_or, Option.isSome_some, Bool.true_and,
        checkTextures, List.any_eq_true, Option.some.injEq]
      constructor
      · rintro ⟨gp, hgp, hmatch⟩
        exact ⟨l, rfl, gp, hgp, (texEntry_iff gp qv hns).1 hmatch⟩
      · rintro ⟨l2, hl2, gp, hgp, hx⟩
        cases hl2
        exact ⟨gp, hgp, (texEntry_iff gp qv hns).2 hx⟩

theorem c6_witness :
    ((["leaf", "root"] : List String) ≠ [] ∧
     "" ∉ (["leaf", "root"] : List String)) ∧
    (locationTest glStemLeaf (QVal.arr ["leaf", "root"]) = true ↔
       ∃ l, glStemLeaf = some l ∧ ∃ gp ∈ l, ∃ r t,
         gp.location = some r ∧ r.location = some t ∧
           t ∈ (["leaf", "root"] : List String)) :=
  ⟨⟨by decide, by decide⟩,
   (c6_multi_any_of glStemLeaf none ["leaf", "root"] (by decide) (by decide)).1⟩
